import Mathlib

/-!
Shallow embedding of the ScoringGateway client layer (`src/services/api.ts`).

The gateway receives JSON payloads from an HTTP transport (axios) and either
returns a (possibly normalized) payload or throws an `Error`.  JSON payloads
and the dynamically-typed values flowing through the adapter are modelled by
`JsValue`; one call to a gateway operation is modelled as a function from the
transport outcome (2xx body, or a caught exception) to a `GatewayOutcome`.

JS semantics modelled faithfully where the gateway exercises them:
field access (`undefined` on a missing key or a non-object receiver,
TypeError on a nullish receiver), optional chaining, truthiness-based `||`
chains, `Array.prototype.map`/`join`, string conversion of values placed in
`Error` messages and template literals, and the fact that `.map` on a
non-array, non-nullish value raises a TypeError.  JS numbers are modelled as
rationals; the decimal rendering of a number and the numeric coercion of
non-numeric strings in comparisons are not exercised by any property below
and are noted where stubbed.
-/

/-- A dynamically-typed JS/JSON value as handled by the gateway. -/
inductive JsValue where
  | vNull : JsValue
  | vUndefined : JsValue
  | vBool : Bool → JsValue
  | vNum : ℚ → JsValue
  | vStr : String → JsValue
  | vArr : List JsValue → JsValue
  | vObj : List (String × JsValue) → JsValue

namespace JsValue

/-- Lookup of a key in an object literal (first binding wins). -/
def lookupField : List (String × JsValue) → String → JsValue
  | [], _ => .vUndefined
  | (k, v) :: fs, key => if k = key then v else lookupField fs key

/-- JS property read `o.k` on a non-nullish receiver: `undefined` when the
key is absent or the receiver is a primitive or an array (no such property
is ever present on the values these endpoints exchange). -/
def getField : JsValue → String → JsValue
  | .vObj fs, key => lookupField fs key
  | _, _ => .vUndefined

/-- JS `v === undefined`: a constructor test. -/
def isUndef : JsValue → Bool
  | .vUndefined => true
  | _ => false

/-- JS truthiness.  (`NaN` does not arise: numbers are rationals here.) -/
def truthy : JsValue → Bool
  | .vNull => false
  | .vUndefined => false
  | .vBool b => b
  | .vNum q => q != 0
  | .vStr s => s != ""
  | .vArr _ => true
  | .vObj _ => true

mutual

/-- JS `String(v)` conversion, as used by `new Error(v)` and by template
literals.  The decimal rendering of numbers is not JS-exact (no property
below ever stringifies a number); every other case follows JS. -/
def jsToString : JsValue → String
  | .vNull => "null"
  | .vUndefined => "undefined"
  | .vBool true => "true"
  | .vBool false => "false"
  | .vNum q => toString q
  | .vStr s => s
  | .vArr xs => jsArrToString xs
  | .vObj _ => "[object Object]"

/-- `Array.prototype.toString`, i.e. `join(",")`: elements converted with
`String(_)` except `null`/`undefined`, which render as the empty string. -/
def jsArrToString : List JsValue → String
  | [] => ""
  | x :: xs =>
    (match x with
      | .vNull => ""
      | .vUndefined => ""
      | v => jsToString v)
    ++ (match xs with
      | [] => ""
      | _ => "," ++ jsArrToString xs)

end

/-- One element of `Array.prototype.join`: `null`/`undefined` become the
empty string, everything else its `String(_)` conversion. -/
def jsElemToString (v : JsValue) : String :=
  match v with
  | .vNull => ""
  | .vUndefined => ""
  | v => jsToString v

/-- `Array.prototype.join(sep)`. -/
def jsJoin (sep : String) (xs : List JsValue) : String :=
  String.intercalate sep (xs.map jsElemToString)

/-- The message carried by `new Error(v)`: absent (empty) when `v` is
`undefined`, otherwise `String(v)`. -/
def errMessageOf (v : JsValue) : String :=
  match v with
  | .vUndefined => ""
  | v => jsToString v

end JsValue

open JsValue

/-- A caught exception as inspected by the gateway catch blocks:
whether `axios.isAxiosError` recognizes it, the response body
`error.response.data` when a response arrived (`none` models a transport
failure with no response, so `error.response` is `undefined`), and the
exception message `error.message`. -/
structure CaughtError where
  isAxios : Bool
  response : Option JsValue
  message : String

/-- The outcome of one call into the transport: a 2xx body
(`response.data`), or a caught exception. -/
inductive TransportOutcome where
  | success (data : JsValue)
  | failure (e : CaughtError)

/-- The outcome the caller of a gateway operation observes: a returned
value, a thrown `Error` carrying a message (the GatewayError), or a
TypeError raised while the catch block itself evaluated — escaping the
gateway uncaught. -/
inductive GatewayOutcome where
  | result (data : JsValue)
  | thrown (msg : String)
  | typeErrorEscape

/-- `error.response?.data?.detail`: short-circuits to `undefined` when no
response arrived or the body is nullish; otherwise reads `detail`. -/
def errDetail (e : CaughtError) : JsValue :=
  match e.response with
  | none => .vUndefined
  | some .vNull => .vUndefined
  | some .vUndefined => .vUndefined
  | some d => getField d "detail"

/-- Evaluation of the callback sweep `detail.map((d) => d.msg)`:
`none` models the TypeError raised when some entry is nullish, so that
`d.msg` reads a property of `null`/`undefined`. -/
def mapMsg : List JsValue → Option (List JsValue)
  | [] => some []
  | .vNull :: _ => none
  | .vUndefined :: _ => none
  | d :: ds => (mapMsg ds).map (fun ms => getField d "msg" :: ms)

/-- Result of evaluating an expression that may raise a TypeError. -/
inductive JsEval where
  | ok (v : JsValue)
  | typeError

/-- `error.response?.data?.detail?.map((d) => d.msg).join(", ")`: the
optional chain yields `undefined` on a nullish `detail`; on an array it maps
each entry to its `msg` and joins; on any other value, `detail.map` is not a
function (strings, numbers, booleans and the plain objects exchanged here
have no callable `map` property) and a TypeError is raised. -/
def detailMapJoin (detail : JsValue) : JsEval :=
  match detail with
  | .vNull => .ok .vUndefined
  | .vUndefined => .ok .vUndefined
  | .vArr xs =>
    match mapMsg xs with
    | none => .typeError
    | some ms => .ok (.vStr (jsJoin ", " ms))
  | _ => .typeError

/-- The shared catch-block body of `getCreditScore` and
`getAssetRecommendation` (their code is identical up to the fixed message
thrown for a non-axios exception):

if axios.isAxiosError(error): throw new Error(
  error.response?.data?.detail?.map((d) => d.msg).join(", ")
  || error.response?.data?.detail
  || "Unknown API error")
else: throw new Error(fallback)

A TypeError raised while evaluating the first operand escapes the catch
block (and the gateway) uncaught. -/
def detailChainFailure (fallback : String) (e : CaughtError) : GatewayOutcome :=
  if e.isAxios then
    match detailMapJoin (errDetail e) with
    | .typeError => .typeErrorEscape
    | .ok joined =>
      let msg : JsValue :=
        if truthy joined then joined
        else if truthy (errDetail e) then errDetail e
        else .vStr "Unknown API error"
      .thrown (errMessageOf msg)
  else .thrown fallback

/-- `response.data.score !== undefined && response.data.credit_score ===
undefined`: the legacy-shape test of the adapter. -/
def isLegacyShape (data : JsValue) : Bool :=
  !(isUndef (getField data "score")) && isUndef (getField data "credit_score")

/-- `const prob = response.data.probability || 0`. -/
def legacyProb (data : JsValue) : JsValue :=
  let pf := getField data "probability"
  if truthy pf then pf else .vNum 0

/-- JS `v <= c` against the numeric threshold literals of the adapter:
numeric comparison when `v` is a number; `false` otherwise (the comparison
of the non-numeric, non-coercible values these payloads could carry yields
`NaN <= c`, which is `false`; numeric-string coercion is not modelled and
not exercised by any property below). -/
def jsLeNum (v : JsValue) (c : ℚ) : Bool :=
  match v with
  | .vNum q => decide (q ≤ c)
  | _ => false

/-- let calculatedRisk = HIGH; if (prob <= 0.25) LOW; else if (prob <= 0.55)
MEDIUM. -/
def legacyRisk (data : JsValue) : String :=
  if jsLeNum (legacyProb data) (1/4) then "LOW"
  else if jsLeNum (legacyProb data) (11/20) then "MEDIUM"
  else "HIGH"

/-- The object literal returned by the legacy-shape branch of
`getCreditScore`. -/
def legacyNormalize (data : JsValue) : JsValue :=
  .vObj
    [ ("credit_score", getField data "score"),
      ("probability_of_default", legacyProb data),
      ("risk_tier", .vStr (legacyRisk data)),
      ("recommended_loan_amount", .vNum 1000000),
      ("recommended_tenor_months", .vNum 12),
      ("explainability", .vObj
        [ ("top_positive_factors", .vArr []),
          ("top_negative_factors", .vArr []) ]) ]

/-- `api.getCreditScore`, as a function of the transport outcome.  On a 2xx
body the adapter sniffs the shape and either normalizes the legacy shape or
returns the body unchanged; reading `.score` off a nullish body raises a
TypeError inside the `try`, which the catch classifies as non-axios and
converts to the fixed fallback message.  On a caught exception the shared
detail-chain catch body runs. -/
def getCreditScore : TransportOutcome → GatewayOutcome
  | .success .vNull => .thrown "Failed to fetch credit score"
  | .success .vUndefined => .thrown "Failed to fetch credit score"
  | .success data =>
    if isLegacyShape data then .result (legacyNormalize data)
    else .result data
  | .failure e => detailChainFailure "Failed to fetch credit score" e

/-- `api.getFinancialHealth`: returns the 2xx body as-is; on an axios error
throws `new Error` of the template literal
`Financial Health API Error: ${error.response?.data?.detail || error.message}`;
on any other exception throws the fixed fallback message. -/
def getFinancialHealth : TransportOutcome → GatewayOutcome
  | .success data => .result data
  | .failure e =>
    if e.isAxios then
      let message : JsValue :=
        if truthy (errDetail e) then errDetail e else .vStr e.message
      .thrown ("Financial Health API Error: " ++ jsToString message)
    else .thrown "Failed to fetch financial health"

/-- `api.getAssetRecommendation`: returns the 2xx body as-is; its catch
block is textually identical to `getCreditScore`'s up to the non-axios
fallback message. -/
def getAssetRecommendation : TransportOutcome → GatewayOutcome
  | .success data => .result data
  | .failure e => detailChainFailure "Failed to fetch asset recommendation" e

/-- A result object carrying every required `CreditScoreResponse` field
(`currency` is optional in the interface and excluded). -/
def fullyPopulated (r : JsValue) : Bool :=
  !(isUndef (getField r "credit_score")) &&
  !(isUndef (getField r "probability_of_default")) &&
  !(isUndef (getField r "risk_tier")) &&
  !(isUndef (getField r "recommended_loan_amount")) &&
  !(isUndef (getField r "recommended_tenor_months")) &&
  !(isUndef (getField r "explainability"))

/-! Helper lemmas about the embedding. -/

theorem isUndef_iff (v : JsValue) : isUndef v = true ↔ v = .vUndefined := by
  cases v <;> simp [isUndef]

theorem isUndef_eq_false (v : JsValue) (h : v ≠ .vUndefined) : isUndef v = false := by
  cases v
  case vUndefined => exact absurd rfl h
  all_goals rfl

theorem isUndef_eq_false_iff (v : JsValue) : isUndef v = false ↔ v ≠ .vUndefined := by
  cases v <;> simp [isUndef]

theorem isLegacyShape_iff (data : JsValue) :
    isLegacyShape data = true ↔
      (getField data "score" ≠ .vUndefined ∧ getField data "credit_score" = .vUndefined) := by
  simp [isLegacyShape, Bool.and_eq_true, Bool.not_eq_true', isUndef_iff, isUndef_eq_false_iff]

/-- The legacy branch of the adapter fires exactly on the shape test. -/
theorem creditScore_legacy_branch (data : JsValue)
    (hs : getField data "score" ≠ .vUndefined)
    (hc : getField data "credit_score" = .vUndefined) :
    getCreditScore (.success data) = .result (legacyNormalize data) := by
  cases data with
  | vObj fs =>
    have hl : isLegacyShape (.vObj fs) = true := (isLegacyShape_iff _).mpr ⟨hs, hc⟩
    simp [getCreditScore, hl]
  | vNull => exact absurd rfl hs
  | vUndefined => exact absurd rfl hs
  | vBool b => exact absurd rfl hs
  | vNum q => exact absurd rfl hs
  | vStr s => exact absurd rfl hs
  | vArr xs => exact absurd rfl hs

/-- `probability || 0` evaluates to the numeric probability when one is
present (`0` itself is falsy, but the default is then the same value). -/
theorem legacyProb_eq (data : JsValue) (p : ℚ)
    (hp : getField data "probability" = .vNum p) :
    legacyProb data = .vNum p := by
  unfold legacyProb
  rw [hp]
  by_cases h : p = 0
  · subst h; simp [truthy]
  · simp [truthy, h]

/-- `probability || 0` never evaluates to `undefined`. -/
theorem isUndef_legacyProb (data : JsValue) : isUndef (legacyProb data) = false := by
  show isUndef
    (if truthy (getField data "probability") then getField data "probability"
     else .vNum 0) = false
  split
  · rename_i h
    cases hv : getField data "probability" <;> simp_all [truthy, isUndef]
  · rfl

/-- The derived tier as a function of a numeric probability. -/
theorem legacyRisk_eq (data : JsValue) (p : ℚ)
    (hp : getField data "probability" = .vNum p) :
    legacyRisk data =
      (if p ≤ 1/4 then "LOW" else if p ≤ 11/20 then "MEDIUM" else "HIGH") := by
  unfold legacyRisk
  rw [legacyProb_eq data p hp]
  by_cases h1 : p ≤ 1/4 <;> by_cases h2 : p ≤ 11/20 <;> simp [jsLeNum, h1, h2]

theorem mapMsg_entries (msgs : List String) :
    mapMsg (msgs.map (fun s => .vObj [("msg", .vStr s)])) = some (msgs.map .vStr) := by
  induction msgs with
  | nil => rfl
  | cons s rest ih => simp [mapMsg, ih, getField, lookupField]

theorem jsJoin_vStr (sep : String) (msgs : List String) :
    jsJoin sep (msgs.map .vStr) = String.intercalate sep msgs := by
  unfold jsJoin
  rw [List.map_map]
  have : (jsElemToString ∘ JsValue.vStr) = fun s => s := by
    funext s; rfl
  rw [this, List.map_id_fun']
  rfl

/-! Claim theorems. -/

/-- C2: for every 2xx payload of the legacy shape (a `score` field and no
`credit_score` field) with numeric probability `p`, `getCreditScore` derives
`risk_tier` as LOW when `p <= 0.25`, MEDIUM when `0.25 < p <= 0.55` and HIGH
when `p > 0.55`. -/
theorem creditScore_legacy_risk_tier (data : JsValue) (p : ℚ)
    (hs : getField data "score" ≠ .vUndefined)
    (hc : getField data "credit_score" = .vUndefined)
    (hp : getField data "probability" = .vNum p) :
    ∃ r, getCreditScore (.success data) = .result r ∧
      getField r "risk_tier" =
        .vStr (if p ≤ 1/4 then "LOW" else if p ≤ 11/20 then "MEDIUM" else "HIGH") := by
  refine ⟨legacyNormalize data, creditScore_legacy_branch data hs hc, ?_⟩
  show JsValue.vStr (legacyRisk data) = _
  rw [legacyRisk_eq data p hp]

/-- A 2xx legacy-shaped body, as the backend currently sends it. -/
def legacyPayload (p : ℚ) : JsValue :=
  .vObj [("score", .vNum 700), ("probability", .vNum p)]

/-- Witness for C2 at the four boundary probabilities named by the claim:
0.25 gives LOW, 0.2501 gives MEDIUM, 0.55 gives MEDIUM, 0.5501 gives HIGH. -/
theorem creditScore_legacy_risk_tier_witness :
    (∃ r, getCreditScore (.success (legacyPayload (1/4))) = .result r ∧
      getField r "risk_tier" = .vStr "LOW") ∧
    (∃ r, getCreditScore (.success (legacyPayload (2501/10000))) = .result r ∧
      getField r "risk_tier" = .vStr "MEDIUM") ∧
    (∃ r, getCreditScore (.success (legacyPayload (11/20))) = .result r ∧
      getField r "risk_tier" = .vStr "MEDIUM") ∧
    (∃ r, getCreditScore (.success (legacyPayload (5501/10000))) = .result r ∧
      getField r "risk_tier" = .vStr "HIGH") := by
  refine ⟨?_, ?_, ?_, ?_⟩
  · obtain ⟨r, h1, h2⟩ := creditScore_legacy_risk_tier (legacyPayload (1/4)) (1/4)
      (fun h => JsValue.noConfusion h) rfl rfl
    refine ⟨r, h1, ?_⟩
    rw [h2]; norm_num
  · obtain ⟨r, h1, h2⟩ := creditScore_legacy_risk_tier (legacyPayload (2501/10000)) (2501/10000)
      (fun h => JsValue.noConfusion h) rfl rfl
    refine ⟨r, h1, ?_⟩
    rw [h2]; norm_num
  · obtain ⟨r, h1, h2⟩ := creditScore_legacy_risk_tier (legacyPayload (11/20)) (11/20)
      (fun h => JsValue.noConfusion h) rfl rfl
    refine ⟨r, h1, ?_⟩
    rw [h2]; norm_num
  · obtain ⟨r, h1, h2⟩ := creditScore_legacy_risk_tier (legacyPayload (5501/10000)) (5501/10000)
      (fun h => JsValue.noConfusion h) rfl rfl
    refine ⟨r, h1, ?_⟩
    rw [h2]; norm_num

/-- C6: every 2xx payload that already carries a `credit_score` field is
returned unchanged by `getCreditScore` — the identity passthrough. -/
theorem creditScore_canonical_passthrough (data : JsValue)
    (hc : getField data "credit_score" ≠ .vUndefined) :
    getCreditScore (.success data) = .result data := by
  cases data with
  | vObj fs =>
    have hl : isLegacyShape (.vObj fs) = false := by
      cases h : isLegacyShape (.vObj fs)
      · rfl
      · exact absurd ((isLegacyShape_iff _).mp h).2 hc
    simp [getCreditScore, hl]
  | vNull => exact absurd rfl hc
  | vUndefined => exact absurd rfl hc
  | vBool b => exact absurd rfl hc
  | vNum q => exact absurd rfl hc
  | vStr s => exact absurd rfl hc
  | vArr xs => exact absurd rfl hc

/-- A fully-populated canonical 2xx body. -/
def canonicalPayload : JsValue :=
  .vObj
    [ ("credit_score", .vNum 720),
      ("probability_of_default", .vNum (12/100)),
      ("risk_tier", .vStr "LOW"),
      ("recommended_loan_amount", .vNum 500000),
      ("recommended_tenor_months", .vNum 24),
      ("currency", .vStr "NGN"),
      ("explainability", .vObj
        [ ("top_positive_factors",
            .vArr [.vObj [("feature", .vStr "PAY_0"), ("impact", .vNum (3/10))]]),
          ("top_negative_factors",
            .vArr [.vObj [("feature", .vStr "LIMIT_BAL"), ("impact", .vNum (-1/10))]]) ]) ]

/-- Witness for C6 at a fully-populated canonical body. -/
theorem creditScore_canonical_passthrough_witness :
    getCreditScore (.success canonicalPayload) = .result canonicalPayload :=
  creditScore_canonical_passthrough canonicalPayload (fun h => JsValue.noConfusion h)

/-- C8: every 2xx legacy payload is normalized with the fixed placeholders
1000000 and 12 and empty explainability lists, whatever `score` and
`probability` hold. -/
theorem creditScore_legacy_defaults (data : JsValue)
    (hs : getField data "score" ≠ .vUndefined)
    (hc : getField data "credit_score" = .vUndefined) :
    ∃ r, getCreditScore (.success data) = .result r ∧
      getField r "recommended_loan_amount" = .vNum 1000000 ∧
      getField r "recommended_tenor_months" = .vNum 12 ∧
      getField (getField r "explainability") "top_positive_factors" = .vArr [] ∧
      getField (getField r "explainability") "top_negative_factors" = .vArr [] :=
  ⟨legacyNormalize data, creditScore_legacy_branch data hs hc, rfl, rfl, rfl, rfl⟩

/-- Witness for C8 at a concrete legacy body. -/
theorem creditScore_legacy_defaults_witness :
    ∃ r, getCreditScore (.success (legacyPayload (9/10))) = .result r ∧
      getField r "recommended_loan_amount" = .vNum 1000000 ∧
      getField r "recommended_tenor_months" = .vNum 12 ∧
      getField (getField r "explainability") "top_positive_factors" = .vArr [] ∧
      getField (getField r "explainability") "top_negative_factors" = .vArr [] :=
  creditScore_legacy_defaults (legacyPayload (9/10)) (fun h => JsValue.noConfusion h) rfl

/-- C9: a legacy payload with a `score` field and no `probability` field
yields `probability_of_default = 0` and `risk_tier = LOW`. -/
theorem creditScore_missing_probability (data : JsValue)
    (hs : getField data "score" ≠ .vUndefined)
    (hc : getField data "credit_score" = .vUndefined)
    (hp : getField data "probability" = .vUndefined) :
    ∃ r, getCreditScore (.success data) = .result r ∧
      getField r "probability_of_default" = .vNum 0 ∧
      getField r "risk_tier" = .vStr "LOW" := by
  have hprob : legacyProb data = .vNum 0 := by
    show (if truthy (getField data "probability") then getField data "probability"
      else .vNum 0) = .vNum 0
    rw [hp]
    rfl
  refine ⟨legacyNormalize data, creditScore_legacy_branch data hs hc, hprob, ?_⟩
  show JsValue.vStr (legacyRisk data) = .vStr "LOW"
  unfold legacyRisk
  rw [hprob]
  norm_num [jsLeNum]

/-- Witness for C9 at the claim input, a body holding only `score: 700`. -/
theorem creditScore_missing_probability_witness :
    ∃ r, getCreditScore (.success (.vObj [("score", .vNum 700)])) = .result r ∧
      getField r "probability_of_default" = .vNum 0 ∧
      getField r "risk_tier" = .vStr "LOW" :=
  creditScore_missing_probability (.vObj [("score", .vNum 700)])
    (fun h => JsValue.noConfusion h) rfl rfl

/-- C10: a caught exception that `axios.isAxiosError` does not recognize is
replaced by the fixed per-operation message; the exception itself is never
re-thrown. -/
theorem gateway_nonAxios_fixed_messages (e : CaughtError) (h : e.isAxios = false) :
    getCreditScore (.failure e) = .thrown "Failed to fetch credit score" ∧
    getFinancialHealth (.failure e) = .thrown "Failed to fetch financial health" ∧
    getAssetRecommendation (.failure e) = .thrown "Failed to fetch asset recommendation" := by
  refine ⟨?_, ?_, ?_⟩
  · simp [getCreditScore, detailChainFailure, h]
  · simp [getFinancialHealth, h]
  · simp [getAssetRecommendation, detailChainFailure, h]

/-- Witness for C10 at a concrete non-axios exception. -/
theorem gateway_nonAxios_fixed_messages_witness :
    getCreditScore (.failure ⟨false, none, "x is not a function"⟩) =
      .thrown "Failed to fetch credit score" ∧
    getFinancialHealth (.failure ⟨false, none, "x is not a function"⟩) =
      .thrown "Failed to fetch financial health" ∧
    getAssetRecommendation (.failure ⟨false, none, "x is not a function"⟩) =
      .thrown "Failed to fetch asset recommendation" :=
  gateway_nonAxios_fixed_messages ⟨false, none, "x is not a function"⟩ rfl

/-- C1 counterexample: the claim fails on the code in both directions.  A
2xx body that is an empty object is neither legacy-shaped nor validated, so
the caller receives the raw payload with no `credit_score` (not a
fully-populated ScoreResult); and a failure whose error body carries a
string-valued `detail` makes the catch block call `.map` on a string, so a
TypeError escapes instead of a GatewayError. -/
theorem creditScore_boundary_cex :
    (getCreditScore (.success (.vObj [])) = .result (.vObj []) ∧
      fullyPopulated (.vObj []) = false) ∧
    getCreditScore (.failure ⟨true, some (.vObj [("detail", .vStr "invalid token")]),
      "Request failed with status code 401"⟩) = .typeErrorEscape :=
  ⟨⟨rfl, rfl⟩, rfl⟩

/-- C1 (amended): a 2xx legacy-shaped body yields a fully-populated
ScoreResult, and a failure yields a thrown GatewayError whenever the
exception is not an axios error or the `detail` chain evaluates without a
TypeError; other 2xx bodies are passed through unvalidated and an axios
failure whose `detail` is non-nullish and non-array lets a TypeError
escape. -/
theorem creditScore_boundary_amended :
    (∀ data : JsValue, getField data "score" ≠ .vUndefined →
      getField data "credit_score" = .vUndefined →
        getCreditScore (.success data) = .result (legacyNormalize data) ∧
        fullyPopulated (legacyNormalize data) = true) ∧
    (∀ e : CaughtError,
      (e.isAxios = false ∨ detailMapJoin (errDetail e) ≠ .typeError) →
        ∃ m, getCreditScore (.failure e) = .thrown m) := by
  constructor
  · intro data hs hc
    refine ⟨creditScore_legacy_branch data hs hc, ?_⟩
    have e1 : getField (legacyNormalize data) "credit_score" = getField data "score" := rfl
    have e2 : getField (legacyNormalize data) "probability_of_default" = legacyProb data := rfl
    unfold fullyPopulated
    rw [e1, e2, isUndef_eq_false _ hs, isUndef_legacyProb]
    rfl
  · intro e h
    show ∃ m, detailChainFailure "Failed to fetch credit score" e = .thrown m
    unfold detailChainFailure
    cases ha : e.isAxios with
    | false => exact ⟨"Failed to fetch credit score", by simp⟩
    | true =>
      cases hd : detailMapJoin (errDetail e) with
      | typeError =>
        rcases h with h | h
        · rw [ha] at h; exact Bool.noConfusion h
        · exact absurd hd h
      | ok joined => exact ⟨_, rfl⟩

/-- Witness for the amended C1: a concrete legacy body and a concrete
no-body transport failure. -/
theorem creditScore_boundary_amended_witness :
    (getCreditScore (.success (.vObj [("score", .vNum 655), ("probability", .vNum (3/10))])) =
      .result (legacyNormalize (.vObj [("score", .vNum 655), ("probability", .vNum (3/10))])) ∧
      fullyPopulated (legacyNormalize
        (.vObj [("score", .vNum 655), ("probability", .vNum (3/10))])) = true) ∧
    ∃ m, getCreditScore (.failure ⟨true, none, "timeout of 0ms exceeded"⟩) = .thrown m :=
  ⟨creditScore_boundary_amended.1 _ (fun h => JsValue.noConfusion h) rfl,
   creditScore_boundary_amended.2 ⟨true, none, "timeout of 0ms exceeded"⟩
     (Or.inr (fun h => JsEval.noConfusion h))⟩

/-- C3 counterexample: on a transport failure with no response at all the
thrown message is the fixed string, not the transport layer message. -/
theorem creditScore_transport_message_cex :
    getCreditScore (.failure ⟨true, none, "connect ECONNREFUSED 127.0.0.1:8000"⟩) =
      .thrown "Unknown API error" ∧
    ("Unknown API error" : String) ≠ "connect ECONNREFUSED 127.0.0.1:8000" :=
  ⟨rfl, by decide⟩

/-- C3 (amended): a transport failure of `getCreditScore` with no structured
response body throws a GatewayError with the fixed message
"Unknown API error" — the transport layer message is never consulted — and
no uncaught exception escapes in this case. -/
theorem creditScore_no_body_fallback (m : String) :
    getCreditScore (.failure ⟨true, none, m⟩) = .thrown "Unknown API error" := rfl

/-- C4: the code evaluated at the failing input of the claim.  The error
body is exactly the one named by the claim; the catch block calls `.map` on
the string `detail`, raising a TypeError that escapes the gateway, instead
of throwing a GatewayError with message "invalid token". -/
theorem creditScore_string_detail_typeError :
    getCreditScore (.failure ⟨true,
      some (.vObj [("detail", .vStr "invalid token")]),
      "Request failed with status code 401"⟩) = .typeErrorEscape := rfl

/-- C5 counterexample: a `detail` list whose single entry carries an empty
`msg` joins to the empty string, which is falsy, so the message falls back
to the stringified list "[object Object]" rather than the join. -/
theorem creditScore_msg_join_cex :
    getCreditScore (.failure ⟨true,
      some (.vObj [("detail", .vArr [.vObj [("msg", .vStr "")]])]), "m"⟩) =
      .thrown "[object Object]" ∧
    ("[object Object]" : String) ≠ String.intercalate ", " [""] :=
  ⟨rfl, by decide⟩

/-- C5 (amended): when `detail` is a list of entries each carrying a string
`msg` and the join of those values with ", " is non-empty, the thrown
GatewayError message is exactly that join; a list whose join is empty falls
through to the later fallbacks instead. -/
theorem creditScore_msg_join_amended (msgs : List String) (body : String)
    (h : String.intercalate ", " msgs ≠ "") :
    getCreditScore (.failure ⟨true,
      some (.vObj [("detail", .vArr (msgs.map (fun s => .vObj [("msg", .vStr s)])))]),
      body⟩) =
      .thrown (String.intercalate ", " msgs) := by
  have hd : errDetail ⟨true,
      some (.vObj [("detail", .vArr (msgs.map (fun s => .vObj [("msg", .vStr s)])))]),
      body⟩ = .vArr (msgs.map (fun s => .vObj [("msg", .vStr s)])) := rfl
  show detailChainFailure "Failed to fetch credit score" _ = _
  unfold detailChainFailure
  rw [hd]
  simp only [detailMapJoin, mapMsg_entries, jsJoin_vStr]
  have ht : truthy (.vStr (String.intercalate ", " msgs)) = true := by
    simp [truthy, h]
  simp [ht, errMessageOf, jsToString]

/-- Witness for the amended C5 at the claim example: msgs "age required"
and "limit required" join to "age required, limit required". -/
theorem creditScore_msg_join_witness :
    getCreditScore (.failure ⟨true,
      some (.vObj [("detail", .vArr
        [.vObj [("msg", .vStr "age required")], .vObj [("msg", .vStr "limit required")]])]),
      "Request failed with status code 422"⟩) =
      .thrown "age required, limit required" :=
  creditScore_msg_join_amended ["age required", "limit required"]
    "Request failed with status code 422" (by decide)

/-- C7 counterexample: on the same transport failure with no response, the
two operations construct different GatewayError messages, so their error
construction is not equivalent. -/
theorem finHealth_policy_cex :
    getCreditScore (.failure ⟨true, none, "Network Error"⟩) = .thrown "Unknown API error" ∧
    getFinancialHealth (.failure ⟨true, none, "Network Error"⟩) =
      .thrown "Financial Health API Error: Network Error" ∧
    ("Unknown API error" : String) ≠ "Financial Health API Error: Network Error" :=
  ⟨rfl, rfl, by decide⟩

/-- C7 (amended): the failure policies of the two operations differ.  On an
axios error with no `detail`, `getFinancialHealth` throws a GatewayError
whose message is "Financial Health API Error: " followed by the transport
layer message (it never joins `msg` entries and never uses the
"Unknown API error" fallback), while `getCreditScore` throws the fixed
"Unknown API error"; the two outcomes always differ there. -/
theorem finHealth_policy_amended (e : CaughtError)
    (ha : e.isAxios = true) (hd : errDetail e = .vUndefined) :
    getFinancialHealth (.failure e) =
      .thrown ("Financial Health API Error: " ++ e.message) ∧
    getCreditScore (.failure e) = .thrown "Unknown API error" ∧
    getFinancialHealth (.failure e) ≠ getCreditScore (.failure e) := by
  have h1 : getFinancialHealth (.failure e) =
      .thrown ("Financial Health API Error: " ++ e.message) := by
    simp [getFinancialHealth, ha, hd, truthy, jsToString]
  have h2 : getCreditScore (.failure e) = .thrown "Unknown API error" := by
    show detailChainFailure "Failed to fetch credit score" e = _
    simp [detailChainFailure, ha, hd, detailMapJoin, truthy, errMessageOf, jsToString]
  refine ⟨h1, h2, ?_⟩
  rw [h1, h2]
  intro heq
  injection heq with hm
  have hlen := congrArg String.length hm
  have l1 : ("Financial Health API Error: " : String).length = 28 := rfl
  have l2 : ("Unknown API error" : String).length = 17 := rfl
  rw [String.length_append, l1, l2] at hlen
  omega

/-- Witness for the amended C7 at a concrete no-response transport
failure. -/
theorem finHealth_policy_amended_witness :
    getFinancialHealth (.failure ⟨true, none, "Network Error"⟩) =
      .thrown ("Financial Health API Error: " ++ "Network Error") ∧
    getCreditScore (.failure ⟨true, none, "Network Error"⟩) = .thrown "Unknown API error" ∧
    getFinancialHealth (.failure ⟨true, none, "Network Error"⟩) ≠
      getCreditScore (.failure ⟨true, none, "Network Error"⟩) :=
  finHealth_policy_amended ⟨true, none, "Network Error"⟩ rfl rfl

/-- Witness for the amended C3 at a concrete connection-refused message. -/
theorem creditScore_no_body_fallback_witness :
    getCreditScore (.failure ⟨true, none, "connect ECONNREFUSED 127.0.0.1:3001"⟩) =
      .thrown "Unknown API error" :=
  creditScore_no_body_fallback "connect ECONNREFUSED 127.0.0.1:3001"
